import Mathlib

/-!
Shallow embedding of `ORUtils::Image<T>` from InfiniTAM
(`src/InfiniTAM/ORUtils/Image.h`), compiled with CUDA support
(the `COMPILE_WITHOUT_CUDA` guard is absent, so the dual-domain
branches are live).

Modelling choices:
* `Vector2i` is a pair of mathematical integers standing for the
  two C `int` fields `x`, `y`.
* Memory blocks (`data_host`, `data_device`) are byte lists
  (`List Nat`); `sizeofT` records `sizeof(T)` of the element type the
  template is instantiated at, so a block for `dataSize` elements holds
  `dataSize * sizeofT` bytes.
* C++ leaves freshly allocated arrays (`new T[n]`, `cudaMalloc`)
  uninitialized; the indeterminate contents are supplied as explicit
  oracle functions `freshH freshD : Nat → Nat` (byte at index).
* The `Image(bool)` constructor leaves `dataSize` and both data
  pointers uninitialized; those indeterminate initial values are
  likewise explicit parameters of the embedded constructor.
* `memset` / `memcpy` act on the byte lists: they overwrite the first
  `n` bytes of the destination block and leave the remainder alone.
* `Free` is embedded as `FreeOps`, which also returns the number of
  deallocation calls performed (`delete[]` counts 1; the CUDA branch
  performs `cudaFree` plus `cudaFreeHost`, counting 2), so that
  double-free claims are expressible.
-/

namespace ORUtils

/-- The 2-component integer vector used for image dimensions. -/
structure Vector2i where
  x : Int
  y : Int
deriving DecidableEq, Repr

/-- State of `ORUtils::Image<T>`: the five data members together with
`sizeofT`, the byte size of the element type `T`. -/
structure Image where
  sizeofT : Nat
  allocateGPU : Bool
  isAllocated : Bool
  data_host : List Nat
  data_device : List Nat
  noDims : Vector2i
  dataSize : Int
deriving DecidableEq, Repr

/-- Contents of a freshly allocated block of `n` bytes, read off from
the indeterminate-value oracle `fresh`. -/
def mkBlock (fresh : Nat → Nat) (n : Nat) : List Nat :=
  (List.range n).map fresh

/-- C `memset(dst, v, n)`: overwrite the first `n` bytes of the block
with `v`, leaving any bytes beyond `n` unchanged. -/
def memset (dst : List Nat) (v : Nat) (n : Nat) : List Nat :=
  List.replicate n v ++ dst.drop n

/-- C `memcpy(dst, src, n)` (also the model of `cudaMemcpy`): the first
`n` bytes of `src` replace the first `n` bytes of `dst`; bytes of `dst`
beyond `n` are unchanged. -/
def memcpy (dst src : List Nat) (n : Nat) : List Nat :=
  src.take n ++ dst.drop n

/-- Number of bytes of an (allocated) block: `dataSize * sizeof(T)`. -/
def Image.byteCount (img : Image) : Nat :=
  (img.dataSize * (img.sizeofT : Int)).toNat

/-- `Image::Allocate(Vector2i noDims)`: if not yet allocated, set the
dimensions, compute `dataSize = noDims.x * noDims.y` and allocate the
host block (and the device block when `allocateGPU`); in every case,
finish by setting `isAllocated = true`. -/
def Image.Allocate (img : Image) (freshH freshD : Nat → Nat)
    (noDims : Vector2i) : Image :=
  let img' :=
    if !img.isAllocated then
      let dataSize : Int := noDims.x * noDims.y
      let n : Nat := (dataSize * (img.sizeofT : Int)).toNat
      if img.allocateGPU then
        { img with noDims := noDims, dataSize := dataSize,
                   data_host := mkBlock freshH n,
                   data_device := mkBlock freshD n }
      else
        { img with noDims := noDims, dataSize := dataSize,
                   data_host := mkBlock freshH n }
    else img
  { img' with isAllocated := true }

/-- `Image::Clear(unsigned char defaultValue)` (source default `0`):
`memset` the host block over `dataSize * sizeof(T)` bytes and, when
`allocateGPU`, `cudaMemset` the device block likewise. -/
def Image.Clear (img : Image) (defaultValue : Nat) : Image :=
  let img' := { img with
    data_host := memset img.data_host defaultValue img.byteCount }
  if img'.allocateGPU then
    { img' with
      data_device := memset img'.data_device defaultValue img'.byteCount }
  else img'

/-- `Image::Free()`, instrumented: the second component counts the
deallocation calls performed (`cudaFree` + `cudaFreeHost` = 2 in the
GPU branch, `delete[]` = 1 otherwise, 0 when nothing is freed). In
every case `isAllocated` is set to `false` afterwards. -/
def Image.FreeOps (img : Image) : Image × Nat :=
  if img.isAllocated then
    ({ img with isAllocated := false }, if img.allocateGPU then 2 else 1)
  else
    ({ img with isAllocated := false }, 0)

/-- `Image::Free()`: the state part of `FreeOps`. -/
def Image.Free (img : Image) : Image :=
  (img.FreeOps).1

/-- `Image::ChangeDims(Vector2i newDims)`: when the new dimensions
differ from the current ones or the image is unallocated, `Free` then
`Allocate(newDims)`; otherwise do nothing. -/
def Image.ChangeDims (img : Image) (freshH freshD : Nat → Nat)
    (newDims : Vector2i) : Image :=
  if newDims ≠ img.noDims ∨ img.isAllocated = false then
    (img.Free).Allocate freshH freshD newDims
  else img

/-- `Image::UpdateDeviceFromHost()`: when `allocateGPU`, copy
`dataSize * sizeof(T)` bytes from the host block to the device block. -/
def Image.UpdateDeviceFromHost (img : Image) : Image :=
  if img.allocateGPU then
    { img with data_device := memcpy img.data_device img.data_host img.byteCount }
  else img

/-- `Image::UpdateHostFromDevice()`: when `allocateGPU`, copy
`dataSize * sizeof(T)` bytes from the device block to the host block. -/
def Image.UpdateHostFromDevice (img : Image) : Image :=
  if img.allocateGPU then
    { img with data_host := memcpy img.data_host img.data_device img.byteCount }
  else img

/-- `Image::SetFrom(source, copyHost, copyDevice)`: copy
`source->dataSize * sizeof(T)` bytes host-to-host when `copyHost`, and
device-to-device when `copyDevice`. -/
def Image.SetFrom (img : Image) (source : Image)
    (copyHost copyDevice : Bool) : Image :=
  let n : Nat := (source.dataSize * (img.sizeofT : Int)).toNat
  let img' :=
    if copyHost then
      { img with data_host := memcpy img.data_host source.data_host n }
    else img
  if copyDevice then
    { img' with data_device := memcpy img'.data_device source.data_device n }
  else img'

/-- `Image::Image(bool allocateGPU)`: an unallocated 0×0 image.
`dsInit`, `hInit`, `dInit` are the indeterminate initial values of the
uninitialized members `dataSize`, `data_host`, `data_device`. -/
def Image.mkEmpty (sizeofT : Nat) (allocateGPU : Bool)
    (dsInit : Int) (hInit dInit : List Nat) : Image :=
  { sizeofT := sizeofT, allocateGPU := allocateGPU, isAllocated := false,
    data_host := hInit, data_device := dInit,
    noDims := ⟨0, 0⟩, dataSize := dsInit }

/-- `Image::Image(Vector2i noDims, bool allocateGPU)`: start
unallocated (dimensions, `dataSize` and pointers indeterminate:
`ndInit`, `dsInit`, `hInit`, `dInit`), then `Allocate(noDims)` and
`Clear()` (fill byte 0). -/
def Image.mkSized (sizeofT : Nat) (ndInit : Vector2i) (dsInit : Int)
    (hInit dInit : List Nat) (freshH freshD : Nat → Nat)
    (noDims : Vector2i) (allocateGPU : Bool) : Image :=
  (Image.Allocate
    { sizeofT := sizeofT, allocateGPU := allocateGPU, isAllocated := false,
      data_host := hInit, data_device := dInit,
      noDims := ndInit, dataSize := dsInit }
    freshH freshD noDims).Clear 0

/-- One application of a public mutating operation. -/
inductive Step : Image → Image → Prop where
  | allocate (s : Image) (fH fD : Nat → Nat) (d : Vector2i) :
      Step s (s.Allocate fH fD d)
  | clear (s : Image) (v : Nat) : Step s (s.Clear v)
  | changeDims (s : Image) (fH fD : Nat → Nat) (d : Vector2i) :
      Step s (s.ChangeDims fH fD d)
  | updDev (s : Image) : Step s s.UpdateDeviceFromHost
  | updHost (s : Image) : Step s s.UpdateHostFromDevice
  | setFrom (s src : Image) (cH cD : Bool) : Step s (s.SetFrom src cH cD)
  | free (s : Image) : Step s s.Free

/-- States reachable from either constructor through the public
operations. -/
inductive Reachable : Image → Prop where
  | empty (szT : Nat) (g : Bool) (ds : Int) (h d : List Nat) :
      Reachable (Image.mkEmpty szT g ds h d)
  | sized (szT : Nat) (nd0 : Vector2i) (ds : Int) (h d : List Nat)
      (fH fD : Nat → Nat) (nd : Vector2i) (g : Bool) :
      Reachable (Image.mkSized szT nd0 ds h d fH fD nd g)
  | step {s t : Image} : Reachable s → Step s t → Reachable t

end ORUtils

namespace ORUtils

/-- Replacing `isAllocated` by the value it already has is the
identity. -/
theorem Image.set_isAllocated_self (img : Image) (b : Bool)
    (h : img.isAllocated = b) :
    ({ img with isAllocated := b } : Image) = img := by
  cases img
  simp_all

/-- C1: if the buffer is already allocated, `Allocate` with any
dimensions (also differing ones) leaves the whole state — dimensions,
`dataSize` and both storage blocks — exactly as it was: it is a silent
no-op, not a resize. -/
theorem Allocate_on_allocated_is_noop (img : Image) (fH fD : Nat → Nat)
    (d : Vector2i) (h : img.isAllocated = true) :
    img.Allocate fH fD d = img := by
  unfold Image.Allocate
  simp only [h, Bool.not_true, Bool.false_eq_true, if_false]
  exact Image.set_isAllocated_self img true h

/-- C1 witness: a concrete allocated 2×2 buffer is unchanged by a
second `Allocate` with different dimensions. -/
theorem Allocate_on_allocated_is_noop_witness :
    ((Image.mkEmpty 1 false 0 [] []).Allocate (fun _ => 0) (fun _ => 0)
        ⟨2, 2⟩).isAllocated = true ∧
    ((Image.mkEmpty 1 false 0 [] []).Allocate (fun _ => 0) (fun _ => 0)
        ⟨2, 2⟩).Allocate (fun _ => 7) (fun _ => 7) ⟨5, 9⟩
      = (Image.mkEmpty 1 false 0 [] []).Allocate (fun _ => 0) (fun _ => 0)
        ⟨2, 2⟩ :=
  ⟨by decide, Allocate_on_allocated_is_noop _ _ _ _ (by decide)⟩

/-- C2: `ChangeDims` with the current dimensions on an allocated
buffer is a no-op: the entire state, in particular the host and device
blocks, is preserved byte-for-byte. -/
theorem ChangeDims_same_dims_is_noop (img : Image) (fH fD : Nat → Nat)
    (h : img.isAllocated = true) :
    img.ChangeDims fH fD img.noDims = img := by
  unfold Image.ChangeDims
  simp [h]

/-- C2 witness: a concrete allocated dual-domain 2×3 buffer with
nontrivial contents is unchanged by `ChangeDims` at its own
dimensions. -/
theorem ChangeDims_same_dims_is_noop_witness :
    ((Image.mkEmpty 1 true 0 [] []).Allocate (fun i => i) (fun i => i + 1)
        ⟨2, 3⟩).isAllocated = true ∧
    ((Image.mkEmpty 1 true 0 [] []).Allocate (fun i => i) (fun i => i + 1)
        ⟨2, 3⟩).ChangeDims (fun _ => 9) (fun _ => 9)
      ((Image.mkEmpty 1 true 0 [] []).Allocate (fun i => i) (fun i => i + 1)
        ⟨2, 3⟩).noDims
      = (Image.mkEmpty 1 true 0 [] []).Allocate (fun i => i) (fun i => i + 1)
        ⟨2, 3⟩ :=
  ⟨by decide, ChangeDims_same_dims_is_noop _ _ _ (by decide)⟩

end ORUtils

namespace ORUtils

/-- C3: for a dual-domain buffer, writing host content P, then
`UpdateDeviceFromHost`, then overwriting the host block with arbitrary
content Q, then `UpdateHostFromDevice`, restores the host block to P. -/
theorem memcpy_roundtrip (host dev Q : List Nat) (n : Nat)
    (hP : host.length = n) (hQ : Q.length = n) :
    memcpy Q (memcpy dev host n) n = host := by
  unfold memcpy
  have h1 : host.take n = host := by
    rw [← hP]
    exact List.take_length host
  have h3 : Q.drop n = [] := by
    rw [← hQ]
    exact List.drop_length _
  rw [h1, h3, ← hP, List.take_left, List.append_nil]

/-- C3: for a dual-domain buffer, writing host content P, then
`UpdateDeviceFromHost`, then overwriting the host block with arbitrary
content Q, then `UpdateHostFromDevice`, restores the host block to P. -/
theorem UpdateDevice_then_UpdateHost_roundtrip (img : Image) (Q : List Nat)
    (hg : img.allocateGPU = true) (ha : img.isAllocated = true)
    (hP : img.data_host.length = img.byteCount)
    (hQ : Q.length = img.byteCount) :
    (({ img.UpdateDeviceFromHost with data_host := Q } : Image).UpdateHostFromDevice).data_host
      = img.data_host := by
  simp only [Image.UpdateDeviceFromHost, Image.UpdateHostFromDevice,
    Image.byteCount, hg, if_true]
  exact memcpy_roundtrip img.data_host img.data_device Q _
    (by simpa [Image.byteCount] using hP) (by simpa [Image.byteCount] using hQ)

/-- C3 witness: a concrete dual-domain 2×1 buffer with host bytes
`[3, 4]`, corrupted to `[9, 9]` between the two transfers, gets
`[3, 4]` back. -/
theorem UpdateDevice_then_UpdateHost_roundtrip_witness :
    ({ sizeofT := 1, allocateGPU := true, isAllocated := true,
       data_host := [3, 4], data_device := [0, 0],
       noDims := ⟨2, 1⟩, dataSize := 2 } : Image).allocateGPU = true ∧
    (({ ({ sizeofT := 1, allocateGPU := true, isAllocated := true,
           data_host := [3, 4], data_device := [0, 0],
           noDims := ⟨2, 1⟩, dataSize := 2 } : Image).UpdateDeviceFromHost
        with data_host := [9, 9] } : Image).UpdateHostFromDevice).data_host
      = [3, 4] :=
  ⟨rfl, UpdateDevice_then_UpdateHost_roundtrip
    { sizeofT := 1, allocateGPU := true, isAllocated := true,
      data_host := [3, 4], data_device := [0, 0],
      noDims := ⟨2, 1⟩, dataSize := 2 } [9, 9] rfl rfl (by decide) (by decide)⟩

/-- C4: constructing with `Image(Vector2i(w, h), false)` for any
`w, h ≥ 0` yields an allocated buffer with `dataSize = w * h` whose
host block consists entirely of zero bytes. -/
theorem mkSized_allocated_and_zero_filled (szT : Nat) (nd0 : Vector2i)
    (ds : Int) (h0 d0 : List Nat) (fH fD : Nat → Nat) (w h : Int)
    (hw : 0 ≤ w) (hh : 0 ≤ h) (s : Image)
    (hs : s = Image.mkSized szT nd0 ds h0 d0 fH fD ⟨w, h⟩ false) :
    s.isAllocated = true ∧ s.dataSize = w * h ∧
    s.data_host = List.replicate ((w * h * (szT : Int)).toNat) 0 := by
  subst hs
  have hlen : (mkBlock fH ((w * h * (szT : Int)).toNat)).length
      = (w * h * (szT : Int)).toNat := by
    simp [mkBlock]
  refine ⟨?_, ?_, ?_⟩ <;>
    simp [Image.mkSized, Image.Allocate, Image.Clear, Image.byteCount,
      memset, List.drop_eq_nil_of_le, hlen.le]

/-- C4 witness: a concrete 3×2 host-only construction is allocated,
has 6 elements and an all-zero host block. -/
theorem mkSized_allocated_and_zero_filled_witness :
    (0 : Int) ≤ 3 ∧ (0 : Int) ≤ 2 ∧
    (Image.mkSized 1 ⟨7, 7⟩ 42 [5] [6] (fun i => i + 1) (fun i => i + 2)
        ⟨3, 2⟩ false).isAllocated = true ∧
    (Image.mkSized 1 ⟨7, 7⟩ 42 [5] [6] (fun i => i + 1) (fun i => i + 2)
        ⟨3, 2⟩ false).dataSize = 3 * 2 ∧
    (Image.mkSized 1 ⟨7, 7⟩ 42 [5] [6] (fun i => i + 1) (fun i => i + 2)
        ⟨3, 2⟩ false).data_host
      = List.replicate ((3 * 2 * ((1 : Nat) : Int)).toNat) 0 :=
  ⟨by decide, by decide,
    mkSized_allocated_and_zero_filled 1 ⟨7, 7⟩ 42 [5] [6]
      (fun i => i + 1) (fun i => i + 2) 3 2 (by decide) (by decide) _ rfl⟩

end ORUtils

namespace ORUtils

/-- Memcpy over the full length of both blocks replaces the
destination entirely by the source. -/
theorem memcpy_full (dst src : List Nat) (n : Nat)
    (hs : src.length = n) (hd : dst.length = n) :
    memcpy dst src n = src := by
  unfold memcpy
  have h1 : src.take n = src := by
    rw [← hs]
    exact List.take_length src
  have h2 : dst.drop n = [] := by
    rw [← hd]
    exact List.drop_length dst
  rw [h1, h2, List.append_nil]

/-- C6: `SetFrom(source, true, false)` between buffers of equal
element count copies the host block byte-for-byte and leaves the
device block, the dimensions, the element count and the allocation
flag of the destination unchanged. -/
theorem SetFrom_host_only (img src : Image)
    (hsz : img.sizeofT = src.sizeofT)
    (hds : img.dataSize = src.dataSize)
    (hsrc : src.data_host.length = src.byteCount)
    (hdst : img.data_host.length = img.byteCount) :
    (img.SetFrom src true false).data_host = src.data_host ∧
    (img.SetFrom src true false).data_device = img.data_device ∧
    (img.SetFrom src true false).noDims = img.noDims ∧
    (img.SetFrom src true false).dataSize = img.dataSize ∧
    (img.SetFrom src true false).isAllocated = img.isAllocated := by
  have hn : (src.dataSize * (img.sizeofT : Int)).toNat = src.byteCount := by
    rw [Image.byteCount, hsz]
  have hn' : (src.dataSize * (img.sizeofT : Int)).toNat = img.byteCount := by
    rw [Image.byteCount, hsz, hds]
  refine ⟨?_, ?_, ?_, ?_, ?_⟩ <;>
    simp [Image.SetFrom, memcpy_full src.data_host, hn ▸ hsrc, hn' ▸ hdst,
      memcpy_full img.data_host src.data_host _ (hn ▸ hsrc) (hn' ▸ hdst)]

/-- C6 witness: two concrete host-only 2×1 buffers; the copy transfers
the host bytes and fixes everything else. -/
theorem SetFrom_host_only_witness :
    ({ sizeofT := 1, allocateGPU := false, isAllocated := true,
       data_host := [1, 2], data_device := [8, 8],
       noDims := ⟨2, 1⟩, dataSize := 2 } : Image).sizeofT
      = ({ sizeofT := 1, allocateGPU := false, isAllocated := true,
           data_host := [5, 6], data_device := [7, 7],
           noDims := ⟨1, 2⟩, dataSize := 2 } : Image).sizeofT ∧
    (({ sizeofT := 1, allocateGPU := false, isAllocated := true,
        data_host := [1, 2], data_device := [8, 8],
        noDims := ⟨2, 1⟩, dataSize := 2 } : Image).SetFrom
      { sizeofT := 1, allocateGPU := false, isAllocated := true,
        data_host := [5, 6], data_device := [7, 7],
        noDims := ⟨1, 2⟩, dataSize := 2 } true false).data_host = [5, 6] ∧
    (({ sizeofT := 1, allocateGPU := false, isAllocated := true,
        data_host := [1, 2], data_device := [8, 8],
        noDims := ⟨2, 1⟩, dataSize := 2 } : Image).SetFrom
      { sizeofT := 1, allocateGPU := false, isAllocated := true,
        data_host := [5, 6], data_device := [7, 7],
        noDims := ⟨1, 2⟩, dataSize := 2 } true false).data_device = [8, 8] :=
  ⟨rfl,
    (SetFrom_host_only
      { sizeofT := 1, allocateGPU := false, isAllocated := true,
        data_host := [1, 2], data_device := [8, 8],
        noDims := ⟨2, 1⟩, dataSize := 2 }
      { sizeofT := 1, allocateGPU := false, isAllocated := true,
        data_host := [5, 6], data_device := [7, 7],
        noDims := ⟨1, 2⟩, dataSize := 2 }
      rfl rfl (by decide) (by decide)).1,
    (SetFrom_host_only
      { sizeofT := 1, allocateGPU := false, isAllocated := true,
        data_host := [1, 2], data_device := [8, 8],
        noDims := ⟨2, 1⟩, dataSize := 2 }
      { sizeofT := 1, allocateGPU := false, isAllocated := true,
        data_host := [5, 6], data_device := [7, 7],
        noDims := ⟨1, 2⟩, dataSize := 2 }
      rfl rfl (by decide) (by decide)).2.1⟩

/-- Free always produces the same state with `isAllocated` cleared. -/
theorem Free_eq (img : Image) :
    img.Free = { img with isAllocated := false } := by
  unfold Image.Free Image.FreeOps
  split <;> rfl

/-- C7: after one `Free` the buffer is unallocated; a second `Free`
performs zero deallocation calls and leaves the state unchanged (so it
is also unallocated); `Free` on a never-allocated buffer performs zero
deallocation calls and is the identity. -/
theorem Free_twice_no_double_free (img : Image) :
    (img.Free).isAllocated = false ∧
    ((img.Free).FreeOps).2 = 0 ∧
    (img.Free).Free = img.Free ∧
    (img.isAllocated = false → img.FreeOps = (img, 0)) := by
  refine ⟨?_, ?_, ?_, ?_⟩
  · rw [Free_eq]
  · rw [Free_eq]
    unfold Image.FreeOps
    simp
  · rw [Free_eq, Free_eq]
  · intro h
    unfold Image.FreeOps
    rw [if_neg (by simp [h])]
    rw [Image.set_isAllocated_self img false h]

/-- C7 witness: the double-free property instantiated at a concrete
allocated dual-domain buffer. -/
theorem Free_twice_no_double_free_witness :
    (({ sizeofT := 4, allocateGPU := true, isAllocated := true,
        data_host := [1], data_device := [2],
        noDims := ⟨1, 1⟩, dataSize := 1 } : Image).Free).isAllocated = false ∧
    ((({ sizeofT := 4, allocateGPU := true, isAllocated := true,
         data_host := [1], data_device := [2],
         noDims := ⟨1, 1⟩, dataSize := 1 } : Image).Free).FreeOps).2 = 0 ∧
    (({ sizeofT := 4, allocateGPU := true, isAllocated := true,
        data_host := [1], data_device := [2],
        noDims := ⟨1, 1⟩, dataSize := 1 } : Image).Free).Free
      = ({ sizeofT := 4, allocateGPU := true, isAllocated := true,
           data_host := [1], data_device := [2],
           noDims := ⟨1, 1⟩, dataSize := 1 } : Image).Free ∧
    (({ sizeofT := 4, allocateGPU := true, isAllocated := true,
        data_host := [1], data_device := [2],
        noDims := ⟨1, 1⟩, dataSize := 1 } : Image).isAllocated = false →
      ({ sizeofT := 4, allocateGPU := true, isAllocated := true,
         data_host := [1], data_device := [2],
         noDims := ⟨1, 1⟩, dataSize := 1 } : Image).FreeOps
        = ({ sizeofT := 4, allocateGPU := true, isAllocated := true,
             data_host := [1], data_device := [2],
             noDims := ⟨1, 1⟩, dataSize := 1 }, 0)) :=
  Free_twice_no_double_free
    { sizeofT := 4, allocateGPU := true, isAllocated := true,
      data_host := [1], data_device := [2],
      noDims := ⟨1, 1⟩, dataSize := 1 }

/-- On a dual-domain image, `Clear` memsets both blocks over
`byteCount` bytes. -/
theorem Clear_eq_of_gpu (img : Image) (v : Nat)
    (hg : img.allocateGPU = true) :
    img.Clear v = { img with
      data_host := memset img.data_host v img.byteCount,
      data_device := memset img.data_device v img.byteCount } := by
  unfold Image.Clear
  simp [hg, Image.byteCount]

/-- C10: on an allocated dual-domain buffer, `Clear(v)` makes the host
and device blocks byte-for-byte equal — both become `byteCount` copies
of the fill byte `v`. -/
theorem Clear_establishes_coherence (img : Image) (v : Nat)
    (hg : img.allocateGPU = true) (ha : img.isAllocated = true)
    (hh : img.data_host.length = img.byteCount)
    (hd : img.data_device.length = img.byteCount) :
    (img.Clear v).data_host = (img.Clear v).data_device ∧
    (img.Clear v).data_host = List.replicate img.byteCount v := by
  have e1 : memset img.data_host v img.byteCount
      = List.replicate img.byteCount v := by
    unfold memset
    rw [← hh, List.drop_length, List.append_nil]
  have e2 : memset img.data_device v img.byteCount
      = List.replicate img.byteCount v := by
    unfold memset
    rw [← hd, List.drop_length, List.append_nil]
  rw [Clear_eq_of_gpu img v hg]
  exact ⟨by simp [e1, e2], by simp [e1]⟩

/-- C10 witness: clearing a concrete dual-domain 1×2 buffer with fill
byte 255 equalizes host and device. -/
theorem Clear_establishes_coherence_witness :
    (({ sizeofT := 1, allocateGPU := true, isAllocated := true,
        data_host := [1, 2], data_device := [3, 4],
        noDims := ⟨1, 2⟩, dataSize := 2 } : Image).Clear 255).data_host
      = (({ sizeofT := 1, allocateGPU := true, isAllocated := true,
            data_host := [1, 2], data_device := [3, 4],
            noDims := ⟨1, 2⟩, dataSize := 2 } : Image).Clear 255).data_device ∧
    (({ sizeofT := 1, allocateGPU := true, isAllocated := true,
        data_host := [1, 2], data_device := [3, 4],
        noDims := ⟨1, 2⟩, dataSize := 2 } : Image).Clear 255).data_host
      = List.replicate
          ({ sizeofT := 1, allocateGPU := true, isAllocated := true,
             data_host := [1, 2], data_device := [3, 4],
             noDims := ⟨1, 2⟩, dataSize := 2 } : Image).byteCount 255 :=
  Clear_establishes_coherence
    { sizeofT := 1, allocateGPU := true, isAllocated := true,
      data_host := [1, 2], data_device := [3, 4],
      noDims := ⟨1, 2⟩, dataSize := 2 } 255 rfl rfl (by decide) (by decide)

end ORUtils

namespace ORUtils

/-- Scenario state for C8: unallocated 0×0 buffer (indeterminate
`dataSize` 5, stale pointers), then `Allocate((4,3))`. -/
def c8s1 : Image :=
  (Image.mkEmpty 1 false 5 [9] [9]).Allocate (fun _ => 3) (fun _ => 3) ⟨4, 3⟩

/-- Scenario state for C8 after `Clear(0xFF)`. -/
def c8s2 : Image := c8s1.Clear 255

/-- Scenario state for C8 after the size-preserving `ChangeDims((4,3))`. -/
def c8s3 : Image := c8s2.ChangeDims (fun _ => 1) (fun _ => 1) ⟨4, 3⟩

/-- Scenario state for C8 after the shrinking `ChangeDims((2,2))`. -/
def c8s4 : Image := c8s3.ChangeDims (fun _ => 2) (fun _ => 2) ⟨2, 2⟩

/-- C8: Allocate((4,3)) gives 12 elements; Clear(0xFF) makes every host
byte 0xFF; ChangeDims((4,3)) keeps them 0xFF; ChangeDims((2,2)) leaves
an allocated buffer with 4 elements. -/
theorem scenario_allocate_clear_changedims :
    c8s1.dataSize = 12 ∧
    c8s2.data_host = List.replicate 12 255 ∧
    c8s3.data_host = List.replicate 12 255 ∧
    c8s4.isAllocated = true ∧ c8s4.dataSize = 4 := by decide

/-- Number of bytes `SetFrom` copies into each selected block:
`source->dataSize * sizeof(T)` — determined by the source alone. -/
def copyExtent (img source : Image) : Nat :=
  (source.dataSize * (img.sizeofT : Int)).toNat

/-- C9: `SetFrom` copies exactly `copyExtent` bytes — the prefix of
each selected destination block of that length comes from the source,
the rest of the destination block is untouched, and the destination's
own `dataSize` plays no role in the copy at all. -/
theorem SetFrom_extent_governed_by_source (img src : Image)
    (cH cD : Bool) (d : Int)
    (hH : copyExtent img src ≤ src.data_host.length)
    (hD : copyExtent img src ≤ src.data_device.length) :
    ((img.SetFrom src true true).data_host.take (copyExtent img src)
        = src.data_host.take (copyExtent img src) ∧
      (img.SetFrom src true true).data_host.drop (copyExtent img src)
        = img.data_host.drop (copyExtent img src)) ∧
    ((img.SetFrom src true true).data_device.take (copyExtent img src)
        = src.data_device.take (copyExtent img src) ∧
      (img.SetFrom src true true).data_device.drop (copyExtent img src)
        = img.data_device.drop (copyExtent img src)) ∧
    ({ img with dataSize := d } : Image).SetFrom src cH cD
        = { img.SetFrom src cH cD with dataSize := d } := by
  have hlenH : (src.data_host.take (copyExtent img src)).length
      = copyExtent img src := by
    simp [List.length_take, Nat.min_eq_left hH]
  have hlenD : (src.data_device.take (copyExtent img src)).length
      = copyExtent img src := by
    simp [List.length_take, Nat.min_eq_left hD]
  refine ⟨⟨?_, ?_⟩, ⟨?_, ?_⟩, ?_⟩
  · exact List.take_left' hlenH
  · exact List.drop_left' hlenH
  · exact List.take_left' hlenD
  · exact List.drop_left' hlenD
  · cases cH <;> cases cD <;> rfl

/-- C9 witness: a destination with `dataSize = 3` receiving from a
source with `dataSize = 2` (byte blocks of length 4): exactly 2 bytes
are copied, the rest is untouched, and changing the destination's
`dataSize` does not affect the result. -/
theorem SetFrom_extent_governed_by_source_witness :
    copyExtent
        { sizeofT := 1, allocateGPU := false, isAllocated := true,
          data_host := [1, 2, 3, 4], data_device := [0, 0, 0, 0],
          noDims := ⟨3, 1⟩, dataSize := 3 }
        { sizeofT := 1, allocateGPU := false, isAllocated := true,
          data_host := [5, 6, 7, 8], data_device := [9, 9, 9, 9],
          noDims := ⟨2, 1⟩, dataSize := 2 }
      ≤ ([5, 6, 7, 8] : List Nat).length ∧
    (({ sizeofT := 1, allocateGPU := false, isAllocated := true,
        data_host := [1, 2, 3, 4], data_device := [0, 0, 0, 0],
        noDims := ⟨3, 1⟩, dataSize := 3 } : Image).SetFrom
      { sizeofT := 1, allocateGPU := false, isAllocated := true,
        data_host := [5, 6, 7, 8], data_device := [9, 9, 9, 9],
        noDims := ⟨2, 1⟩, dataSize := 2 } true true).data_host.drop 2
      = ([1, 2, 3, 4] : List Nat).drop 2 :=
  ⟨by decide,
    ((SetFrom_extent_governed_by_source
      { sizeofT := 1, allocateGPU := false, isAllocated := true,
        data_host := [1, 2, 3, 4], data_device := [0, 0, 0, 0],
        noDims := ⟨3, 1⟩, dataSize := 3 }
      { sizeofT := 1, allocateGPU := false, isAllocated := true,
        data_host := [5, 6, 7, 8], data_device := [9, 9, 9, 9],
        noDims := ⟨2, 1⟩, dataSize := 2 }
      true true 7 (by decide) (by decide)).1).2⟩

end ORUtils

namespace ORUtils

/-- The derived-size invariant: `dataSize` is the product of the two
dimension components. -/
def sizeInv (img : Image) : Prop :=
  img.dataSize = img.noDims.x * img.noDims.y

/-- `Allocate` on an already-allocated image changes nothing. -/
theorem Allocate_of_allocated (s : Image) (fH fD : Nat → Nat)
    (d : Vector2i) (hs : s.isAllocated = true) :
    s.Allocate fH fD d = s := by
  unfold Image.Allocate
  simp only [hs, Bool.not_true, Bool.false_eq_true, if_false]
  exact Image.set_isAllocated_self s true hs

/-- `Allocate` on an unallocated image installs the requested
dimensions and the derived element count. -/
theorem Allocate_fields_of_unallocated (s : Image) (fH fD : Nat → Nat)
    (d : Vector2i) (hs : s.isAllocated = false) :
    (s.Allocate fH fD d).noDims = d ∧
    (s.Allocate fH fD d).dataSize = d.x * d.y ∧
    (s.Allocate fH fD d).isAllocated = true := by
  unfold Image.Allocate
  cases hA : s.allocateGPU <;> simp [hs, hA]

/-- `Clear` does not touch dimensions, element count or the allocation
flag. -/
theorem Clear_metadata (s : Image) (v : Nat) :
    (s.Clear v).noDims = s.noDims ∧ (s.Clear v).dataSize = s.dataSize ∧
    (s.Clear v).isAllocated = s.isAllocated := by
  unfold Image.Clear
  cases hA : s.allocateGPU <;> simp [hA]

/-- `UpdateDeviceFromHost` does not touch dimensions, element count or
the allocation flag. -/
theorem UpdateDeviceFromHost_metadata (s : Image) :
    (s.UpdateDeviceFromHost).noDims = s.noDims ∧
    (s.UpdateDeviceFromHost).dataSize = s.dataSize ∧
    (s.UpdateDeviceFromHost).isAllocated = s.isAllocated := by
  unfold Image.UpdateDeviceFromHost
  cases hA : s.allocateGPU <;> simp [hA]

/-- `UpdateHostFromDevice` does not touch dimensions, element count or
the allocation flag. -/
theorem UpdateHostFromDevice_metadata (s : Image) :
    (s.UpdateHostFromDevice).noDims = s.noDims ∧
    (s.UpdateHostFromDevice).dataSize = s.dataSize ∧
    (s.UpdateHostFromDevice).isAllocated = s.isAllocated := by
  unfold Image.UpdateHostFromDevice
  cases hA : s.allocateGPU <;> simp [hA]

/-- `SetFrom` does not touch dimensions, element count or the
allocation flag of the destination. -/
theorem SetFrom_metadata (s src : Image) (cH cD : Bool) :
    (s.SetFrom src cH cD).noDims = s.noDims ∧
    (s.SetFrom src cH cD).dataSize = s.dataSize ∧
    (s.SetFrom src cH cD).isAllocated = s.isAllocated := by
  unfold Image.SetFrom
  cases cH <;> cases cD <;> simp

/-- Every public operation preserves the size invariant on allocated
states. -/
theorem Step_preserves_sizeInv {s t : Image} (st : Step s t)
    (h : s.isAllocated = true → sizeInv s) :
    t.isAllocated = true → sizeInv t := by
  cases st with
  | allocate fH fD d =>
      intro _
      by_cases hs : s.isAllocated = true
      · rw [Allocate_of_allocated s fH fD d hs]
        exact h hs
      · have hs' : s.isAllocated = false := by simpa using hs
        have hA := Allocate_fields_of_unallocated s fH fD d hs'
        unfold sizeInv
        rw [hA.1, hA.2.1]
  | clear v =>
      intro ht
      have m := Clear_metadata s v
      rw [m.2.2] at ht
      unfold sizeInv
      rw [m.1, m.2.1]
      exact h ht
  | changeDims fH fD d =>
      intro ht
      unfold sizeInv
      unfold Image.ChangeDims at ht ⊢
      by_cases hc : d ≠ s.noDims ∨ s.isAllocated = false
      · rw [if_pos hc] at ht ⊢
        have hf : (s.Free).isAllocated = false := by rw [Free_eq]
        have hA := Allocate_fields_of_unallocated s.Free fH fD d hf
        rw [hA.1, hA.2.1]
      · rw [if_neg hc] at ht ⊢
        exact h ht
  | updDev =>
      intro ht
      have m := UpdateDeviceFromHost_metadata s
      rw [m.2.2] at ht
      unfold sizeInv
      rw [m.1, m.2.1]
      exact h ht
  | updHost =>
      intro ht
      have m := UpdateHostFromDevice_metadata s
      rw [m.2.2] at ht
      unfold sizeInv
      rw [m.1, m.2.1]
      exact h ht
  | setFrom src cH cD =>
      intro ht
      have m := SetFrom_metadata s src cH cD
      rw [m.2.2] at ht
      unfold sizeInv
      rw [m.1, m.2.1]
      exact h ht
  | free =>
      intro ht
      rw [Free_eq] at ht
      simp at ht

/-- C5 (amended): in every reachable state that is currently
allocated, `dataSize` equals the product of the current dimensions.
(The freshly constructed, never-allocated buffer is excluded: there
`dataSize` is an uninitialized member.) -/
theorem reachable_allocated_sizeInv (s : Image) (hr : Reachable s)
    (ha : s.isAllocated = true) :
    s.dataSize = s.noDims.x * s.noDims.y := by
  suffices hs : s.isAllocated = true → sizeInv s from hs ha
  clear ha
  induction hr with
  | empty szT g ds h d =>
      intro hc
      simp [Image.mkEmpty] at hc
  | sized szT nd0 ds h d fH fD nd g =>
      intro _
      unfold sizeInv Image.mkSized
      have hA := Allocate_fields_of_unallocated
        { sizeofT := szT, allocateGPU := g, isAllocated := false,
          data_host := h, data_device := d, noDims := nd0, dataSize := ds }
        fH fD nd rfl
      have m := Clear_metadata
        (Image.Allocate
          { sizeofT := szT, allocateGPU := g, isAllocated := false,
            data_host := h, data_device := d, noDims := nd0, dataSize := ds }
          fH fD nd) 0
      rw [m.1, m.2.1, hA.1, hA.2.1]
  | step hr hst ih =>
      exact Step_preserves_sizeInv hst ih

/-- C5 counterexample: the claim as stated also covers the freshly
constructed unallocated 0×0 buffer, where `dataSize` is an
uninitialized member: with indeterminate value 5 it differs from
0 × 0. -/
theorem sizeInv_fails_on_fresh_buffer :
    Reachable (Image.mkEmpty 1 false 5 [] []) ∧
    ¬ ((Image.mkEmpty 1 false 5 [] []).dataSize
        = (Image.mkEmpty 1 false 5 [] []).noDims.x
            * (Image.mkEmpty 1 false 5 [] []).noDims.y) :=
  ⟨Reachable.empty 1 false 5 [] [], by decide⟩

/-- C5 witness: a concrete reachable allocated 2×3 buffer satisfies
the size invariant. -/
theorem reachable_allocated_sizeInv_witness :
    (Image.mkSized 1 ⟨9, 9⟩ 7 [1] [2] (fun _ => 0) (fun _ => 0)
        ⟨2, 3⟩ false).dataSize
      = (Image.mkSized 1 ⟨9, 9⟩ 7 [1] [2] (fun _ => 0) (fun _ => 0)
          ⟨2, 3⟩ false).noDims.x
        * (Image.mkSized 1 ⟨9, 9⟩ 7 [1] [2] (fun _ => 0) (fun _ => 0)
            ⟨2, 3⟩ false).noDims.y :=
  reachable_allocated_sizeInv _
    (Reachable.sized 1 ⟨9, 9⟩ 7 [1] [2] (fun _ => 0) (fun _ => 0) ⟨2, 3⟩ false)
    (by decide)

end ORUtils
